import Mathlib

/-
Shallow embedding of the shop schema defined in src/shop/models.py.

Tables are lists of rows; a `DB` value is the whole database state.
Decimal fields (price, unit_price, total_amount) are rationals; integer
fields are Nat / Int as in the source.  Server-managed timestamp columns
(created_at / updated_at) and free-text columns not used by any query
helper or constraint are omitted: no claim mentions them.
-/

namespace Shop

/-- Storage-layer constraint declared in a model's `Meta.constraints` list. -/
inductive MetaConstraint where
  | uniqueTogether (fields : List String) (cname : String)
deriving DecidableEq

/-- Row of the `Product` table: `name`, `price` (decimal), foreign key to
`Category`, `stock_quantity` (PositiveIntegerField, default 0), and the
inherited `is_active` flag from `TrackedModel`. -/
structure Product where
  id : Nat
  name : String
  price : ℚ
  categoryId : Nat
  stock_quantity : Nat
  is_active : Bool
deriving DecidableEq

/-- Row of the `Tag` table: unique `name`. -/
structure Tag where
  id : Nat
  name : String
deriving DecidableEq

/-- Row of the `ProductTag` link table: foreign keys to `Product` and `Tag`,
both `on_delete=CASCADE`. -/
structure ProductTag where
  productId : Nat
  tagId : Nat
deriving DecidableEq

/-- Row of the `Review` table: foreign keys to `Product` and `Customer`
(both CASCADE) and an integer `rating`. -/
structure Review where
  id : Nat
  productId : Nat
  customerId : Nat
  rating : Int
deriving DecidableEq

/-- Row of the `OrderItem` table: foreign key to `Order` (CASCADE) and to
`Product` (PROTECT); `quantity` (PositiveIntegerField) and `unit_price`. -/
structure OrderItem where
  id : Nat
  orderId : Nat
  productId : Nat
  quantity : Nat
  unit_price : ℚ
deriving DecidableEq

/-- Row of the `ProductDetail` table: one-to-one with `Product`,
`on_delete=CASCADE`. -/
structure ProductDetail where
  productId : Nat
deriving DecidableEq

/-- Row of the `ProductSupplier` link table: foreign keys to `Product` and
`Supplier`, both CASCADE; `purchase_price` and `delivery_days`. -/
structure ProductSupplier where
  productId : Nat
  supplierId : Nat
  purchase_price : ℚ
  delivery_days : Nat
deriving DecidableEq

/-- Database state: one list of rows per table the claims touch. -/
structure DB where
  products : List Product
  tags : List Tag
  productTags : List ProductTag
  reviews : List Review
  orderItems : List OrderItem
  productDetails : List ProductDetail
  productSuppliers : List ProductSupplier
deriving DecidableEq

/-- Errors surfaced at the storage / validation boundary. -/
inductive DBError where
  | validationError
  | uniquenessViolation
  | referentialIntegrityViolation
deriving DecidableEq

/-- Django `MinValueValidator(m)` on an integer field. -/
def minValueValidatorInt (m v : Int) : Bool := decide (m ≤ v)

/-- Django `MaxValueValidator(m)` on an integer field. -/
def maxValueValidatorInt (m v : Int) : Bool := decide (v ≤ m)

/-- Django `MinValueValidator(m)` on a positive-integer field. -/
def minValueValidatorNat (m v : Nat) : Bool := decide (m ≤ v)

/-- Django `MinValueValidator(m)` on a decimal field. -/
def minValueValidatorQ (m v : ℚ) : Bool := decide (m ≤ v)

/-- ProductQuerySet.available: `self.filter(stock_quantity__gt=0, is_active=True)`. -/
def available (ps : List Product) : List Product :=
  ps.filter (fun p => decide (p.stock_quantity > 0) && p.is_active)

/-- ProductQuerySet.priced_between: `self.filter(price__gte=low, price__lte=high)`. -/
def priced_between (ps : List Product) (low high : ℚ) : List Product :=
  ps.filter (fun p => decide (low ≤ p.price) && decide (p.price ≤ high))

/-- Error raised while building a query: Django's FieldError when a filter
keyword does not resolve into a field or relation of the model. -/
inductive QueryError where
  | fieldError (keyword : String)
deriving DecidableEq

/-- Filter keywords resolvable on `Product`: its declared fields (`name`,
`description`, `price`, `category`, `stock_quantity`, the many-to-many
`suppliers`, and the inherited `created_at`, `updated_at`, `created_by`,
`is_active`) together with the reverse relations that point at `Product`,
under their `related_name` values: `details` (ProductDetail),
`product_suppliers` (ProductSupplier), `product_tags` (ProductTag),
`order_items` (OrderItem) and `reviews` (Review).  No relation of
`Product` is named `tags`. -/
def productFilterKeywords : List String :=
  ["id", "name", "description", "price", "category", "stock_quantity",
   "suppliers", "created_at", "updated_at", "created_by", "is_active",
   "details", "product_suppliers", "product_tags", "order_items", "reviews"]

/-- ProductQuerySet.by_tag: `self.filter(tags__name=tag_name)`.  Django
resolves the first segment of the filter keyword (`tags`) against the
model's fields and relations before any row is touched; when it does not
resolve, the call raises FieldError.  Were the relation present, the
filter would be the join through `ProductTag` to a `Tag` whose name
equals the argument. -/
def by_tag (db : DB) (ps : List Product) (tag_name : String) :
    Except QueryError (List Product) :=
  if productFilterKeywords.contains "tags" then
    Except.ok (ps.filter (fun p =>
      db.productTags.any (fun pt =>
        pt.productId == p.id &&
          db.tags.any (fun tg => tg.id == pt.tagId && tg.name == tag_name))))
  else
    Except.error (QueryError.fieldError "tags")

/-- Modelled from the spec: the intended behavior of by_tag — restrict to
the products associated, through the product–tag link, with a tag of the
given name.  The source's filter keyword never reaches this join, because
`Product` has no relation named `tags` (the `ProductTag` reverse relation
is `product_tags`). -/
def by_tag_intended (db : DB) (ps : List Product) (tag_name : String) : List Product :=
  ps.filter (fun p =>
    db.productTags.any (fun pt =>
      pt.productId == p.id &&
        db.tags.any (fun tg => tg.id == pt.tagId && tg.name == tag_name)))

/-- Reviews of one product: the reverse foreign key `reviews` on `Product`. -/
def productReviews (db : DB) (p : Product) : List Review :=
  db.reviews.filter (fun r => r.productId == p.id)

/-- Result row of ProductQuerySet.with_rating: the product annotated with
`review_count` and `avg_rating`. -/
structure RatedProduct where
  product : Product
  review_count : Nat
  avg_rating : Option ℚ
deriving DecidableEq

/-- Annotation of one product, as in ProductQuerySet.with_rating:
`review_count=Count("reviews", distinct=True)` counts distinct review rows,
`avg_rating=Avg("reviews__rating")` is the arithmetic mean of the ratings
and is SQL NULL (`none`) when the product has no reviews. -/
def rateProduct (db : DB) (p : Product) : RatedProduct :=
  let rs := productReviews db p
  { product := p
    review_count := ((rs.map Review.id).dedup).length
    avg_rating :=
      if rs = [] then none
      else some ((rs.map (fun r => (r.rating : ℚ))).sum / (rs.length : ℚ)) }

/-- ProductQuerySet.with_rating: annotate every row of the product set. -/
def with_rating (db : DB) (ps : List Product) : List RatedProduct :=
  ps.map (rateProduct db)

/-- Product.Meta.constraints from the source: one UniqueConstraint on
`(name, category)` named `uniq_product_in_category`. -/
def productMetaConstraints : List MetaConstraint :=
  [MetaConstraint.uniqueTogether ["name", "category"] "uniq_product_in_category"]

/-- OrderItem.Meta.constraints from the source: one UniqueConstraint on
`(order, product)` named `uniq_order_product`. -/
def orderItemMetaConstraints : List MetaConstraint :=
  [MetaConstraint.uniqueTogether ["order", "product"] "uniq_order_product"]

/-- Review.Meta from the source declares only an index on
`(product, rating)`; its constraints list is empty — in particular there is
no check constraint on `rating` and no uniqueness over `(product, customer)`. -/
def reviewMetaConstraints : List MetaConstraint := []

/-- Field validators of `Review.rating`:
`MinValueValidator(1), MaxValueValidator(5)` (application-level). -/
def validReviewRating (r : Int) : Bool :=
  minValueValidatorInt 1 r && maxValueValidatorInt 5 r

/-- Validation (`full_clean`) of an `OrderItem`: `quantity` has
`MinValueValidator(1)`, `unit_price` has `MinValueValidator(0)`. -/
def validOrderItem (oi : OrderItem) : Bool :=
  minValueValidatorNat 1 oi.quantity && minValueValidatorQ 0 oi.unit_price

/-- Insertion of a `Product`: the storage layer enforces the
`uniq_product_in_category` UniqueConstraint on `(name, category)`; on
violation the write is rejected with no state change. -/
def insertProduct (db : DB) (p : Product) : Except DBError DB :=
  if db.products.any (fun q => q.name == p.name && q.categoryId == p.categoryId) then
    Except.error DBError.uniquenessViolation
  else
    Except.ok { db with products := db.products ++ [p] }

/-- Creation of an `OrderItem`: field validators run first, then the
storage layer enforces the `uniq_order_product` UniqueConstraint. -/
def createOrderItem (db : DB) (oi : OrderItem) : Except DBError DB :=
  if !(validOrderItem oi) then
    Except.error DBError.validationError
  else if db.orderItems.any (fun x => x.orderId == oi.orderId && x.productId == oi.productId) then
    Except.error DBError.uniquenessViolation
  else
    Except.ok { db with orderItems := db.orderItems ++ [oi] }

/-- Creation of a `Review` through validation: the rating validators run,
and the storage layer has no constraint of its own to check
(`reviewMetaConstraints = []`). -/
def createReview (db : DB) (r : Review) : Except DBError DB :=
  if validReviewRating r.rating then
    Except.ok { db with reviews := db.reviews ++ [r] }
  else
    Except.error DBError.validationError

/-- Direct storage-level write of a `Review` (a concurrent writer or a raw
data edit that bypasses application validation): Review.Meta declares no
constraints, so every row is accepted. -/
def insertReviewStorage (db : DB) (r : Review) : Except DBError DB :=
  Except.ok { db with reviews := db.reviews ++ [r] }

/-- Deletion of a `Product`.  `OrderItem.product` is `on_delete=PROTECT`,
so the deletion is rejected while any order item references the product;
otherwise `ProductDetail`, `ProductSupplier`, `ProductTag` and `Review`
rows of the product cascade (`on_delete=CASCADE` on each). -/
def deleteProduct (db : DB) (pid : Nat) : Except DBError DB :=
  if db.orderItems.any (fun oi => oi.productId == pid) then
    Except.error DBError.referentialIntegrityViolation
  else
    Except.ok
      { db with
        products := db.products.filter (fun p => p.id != pid)
        productDetails := db.productDetails.filter (fun d => d.productId != pid)
        productSuppliers := db.productSuppliers.filter (fun s => s.productId != pid)
        productTags := db.productTags.filter (fun pt => pt.productId != pid)
        reviews := db.reviews.filter (fun r => r.productId != pid) }

/-- Order.Status: the closed TextChoices enumeration of the source. -/
inductive OrderStatus where
  | pending
  | completed
  | shipped
  | cancelled
deriving DecidableEq

/-- Stored string value of each `Order.Status` member. -/
def OrderStatus.value : OrderStatus → String
  | OrderStatus.pending => "pending"
  | OrderStatus.completed => "completed"
  | OrderStatus.shipped => "shipped"
  | OrderStatus.cancelled => "cancelled"

/-- All members of `Order.Status`, in declaration order. -/
def OrderStatus.all : List OrderStatus :=
  [OrderStatus.pending, OrderStatus.completed, OrderStatus.shipped, OrderStatus.cancelled]

/-- Order.Status.choices: the list of stored values offered by the field. -/
def statusChoices : List String := OrderStatus.all.map OrderStatus.value

/-- Default of the `status` field: `default=Status.PENDING`. -/
def defaultOrderStatus : String := OrderStatus.value OrderStatus.pending

/-- Choice validation of the `status` CharField. -/
def validOrderStatus (s : String) : Bool := statusChoices.contains s

/-- Row of the `Order` table: foreign key to `Customer` (PROTECT),
`total_amount` decimal, `status` CharField with choices. -/
structure Order where
  id : Nat
  customerId : Nat
  total_amount : ℚ
  status : String
deriving DecidableEq

/-- Construction of an `Order` row; a missing `status` argument takes the
field default `Status.PENDING`. -/
def mkOrder (oid customerId : Nat) (amount : ℚ) (st : Option String) : Order :=
  { id := oid, customerId := customerId, total_amount := amount,
    status := st.getD defaultOrderStatus }

/-- Validation (`full_clean`) of an `Order`: the status must be one of the
declared choices and `total_amount` has `MinValueValidator(0)`. -/
def validOrder (o : Order) : Bool :=
  validOrderStatus o.status && minValueValidatorQ 0 o.total_amount

/-- Example product A of the spec: stock 0, active. -/
def prodA : Product :=
  { id := 1, name := "A", price := 10, categoryId := 1, stock_quantity := 0, is_active := true }

/-- Example product B of the spec: stock 5, active. -/
def prodB : Product :=
  { id := 2, name := "B", price := 20, categoryId := 1, stock_quantity := 5, is_active := true }

/-- Example product C of the spec: stock 5, inactive. -/
def prodC : Product :=
  { id := 3, name := "C", price := 30, categoryId := 1, stock_quantity := 5, is_active := false }

/-- Example product D, target of the review examples. -/
def prodD : Product :=
  { id := 4, name := "D", price := 40, categoryId := 2, stock_quantity := 1, is_active := true }

/-- Review of product D by customer 7, rating 3. -/
def revD1 : Review := { id := 1, productId := 4, customerId := 7, rating := 3 }

/-- Second review of product D by the same customer 7, rating 5. -/
def revD2 : Review := { id := 2, productId := 4, customerId := 7, rating := 5 }

/-- Database holding product D and no reviews. -/
def dbD0 : DB :=
  { products := [prodD], tags := [], productTags := [], reviews := [],
    orderItems := [], productDetails := [], productSuppliers := [] }

/-- Database after inserting `revD1` into `dbD0`. -/
def dbD1 : DB := { dbD0 with reviews := [revD1] }

/-- Database after inserting `revD2` into `dbD1`: product D has the two
reviews rated 3 and 5. -/
def dbEx : DB := { dbD0 with reviews := [revD1, revD2] }

/-- Review with the out-of-range rating 6. -/
def badReview : Review := { id := 9, productId := 4, customerId := 7, rating := 6 }

/-- Order item referencing product 1, used for the PROTECT example. -/
def oiDel : OrderItem :=
  { id := 1, orderId := 1, productId := 1, quantity := 1, unit_price := 10 }

/-- Database in which product 1 is still referenced by an order item. -/
def dbDel : DB :=
  { products := [prodA], tags := [], productTags := [], reviews := [],
    orderItems := [oiDel], productDetails := [], productSuppliers := [] }

/-- Product with the same `(name, category)` as `prodA`, used for the
uniqueness example. -/
def prodDupA : Product :=
  { id := 5, name := "A", price := 11, categoryId := 1, stock_quantity := 2, is_active := true }

/-- Product with the same name as `prodA` but another category. -/
def prodDiffCat : Product :=
  { id := 6, name := "A", price := 12, categoryId := 2, stock_quantity := 2, is_active := true }

/-- Order item with `quantity = 0`, used for the validation example. -/
def oiZero : OrderItem :=
  { id := 2, orderId := 2, productId := 4, quantity := 0, unit_price := 10 }

/-- Order item with `quantity = 1` for the fresh pair `(order 2, product 4)`. -/
def oiOne : OrderItem :=
  { id := 3, orderId := 2, productId := 4, quantity := 1, unit_price := 10 }

/-- Second order item for the pair `(order 1, product 1)` already present in
`dbDel`, used for the uniqueness example. -/
def oiDup : OrderItem :=
  { id := 4, orderId := 1, productId := 1, quantity := 3, unit_price := 15 }

/-- Example order used to instantiate the status theorem. -/
def ordEx : Order := mkOrder 1 7 100 (some "shipped")

/-- Tag named "sale", used for the by_tag example. -/
def tagSale : Tag := { id := 1, name := "sale" }

/-- Link associating product D with the tag "sale". -/
def ptD4 : ProductTag := { productId := 4, tagId := 1 }

/-- Database in which product D carries the tag "sale". -/
def dbTagEx : DB :=
  { products := [prodD], tags := [tagSale], productTags := [ptD4], reviews := [],
    orderItems := [], productDetails := [], productSuppliers := [] }

/-- Claim C2: `available()` returns exactly the subset of products with
`stock_quantity > 0` and `is_active = true`; in particular, on the example
products A(stock=0, active), B(stock=5, active), C(stock=5, inactive) it
returns only B. -/
theorem available_spec :
    (∀ (ps : List Product) (p : Product),
      p ∈ available ps ↔ p ∈ ps ∧ p.stock_quantity > 0 ∧ p.is_active = true) ∧
    available [prodA, prodB, prodC] = [prodB] := by
  constructor
  · intro ps p
    simp [available, List.mem_filter, and_assoc]
  · rfl

/-- Claim C8: `priced_between(low, high)` returns exactly the products whose
`price` lies in the inclusive range `[low, high]`. -/
theorem priced_between_spec :
    ∀ (ps : List Product) (low high : ℚ) (p : Product),
      p ∈ priced_between ps low high ↔ p ∈ ps ∧ low ≤ p.price ∧ p.price ≤ high := by
  intro ps low high p
  simp [priced_between, List.mem_filter, and_assoc]

/-- Claim C1 (code bug): the filter keyword `tags` of
`self.filter(tags__name=tag_name)` does not resolve on `Product` — the
reverse relation of `ProductTag.product` is named `product_tags` — so
`by_tag` raises FieldError on every input instead of returning the
products associated with a tag of the given name; at the concrete
database where product D carries the tag "sale", the intended join
returns product D while the code fails. -/
theorem by_tag_raises_fieldError :
    (∀ (db : DB) (ps : List Product) (t : String),
      by_tag db ps t = Except.error (QueryError.fieldError "tags")) ∧
    productFilterKeywords.contains "tags" = false ∧
    by_tag_intended dbTagEx dbTagEx.products "sale" = [prodD] ∧
    by_tag dbTagEx dbTagEx.products "sale" =
      Except.error (QueryError.fieldError "tags") := by
  refine ⟨?_, by decide, by decide, by simp [by_tag, productFilterKeywords]⟩
  intro db ps t
  simp [by_tag, productFilterKeywords]

/-- Claim C3: `with_rating()` annotates every product with `review_count`
equal to the number of distinct reviews of the product and `avg_rating`
equal to the arithmetic mean of their ratings, `none` when the product has
no reviews; on the example product with reviews rated [3, 5] it yields
`review_count = 2` and `avg_rating = 4`. -/
theorem with_rating_spec :
    (∀ (db : DB) (ps : List Product) (p : Product), p ∈ ps →
      ∃ rp ∈ with_rating db ps, rp.product = p ∧
        rp.review_count = ((productReviews db p).map Review.id).toFinset.card ∧
        (productReviews db p = [] → rp.avg_rating = none) ∧
        (productReviews db p ≠ [] →
          rp.avg_rating =
            some (((productReviews db p).map (fun r => (r.rating : ℚ))).sum /
              ((productReviews db p).length : ℚ)))) ∧
    (rateProduct dbEx prodD).review_count = 2 ∧
    (rateProduct dbEx prodD).avg_rating = some 4 := by
  refine ⟨?_, ?_, ?_⟩
  · intro db ps p hp
    refine ⟨rateProduct db p, List.mem_map_of_mem _ hp, rfl, ?_, ?_, ?_⟩
    · simp [rateProduct, List.card_toFinset]
    · intro h
      simp [rateProduct, h]
    · intro h
      simp [rateProduct, h]
  · rfl
  · norm_num [rateProduct, productReviews, dbEx, dbD0, prodD, revD1, revD2]
    simp

/-- Witness for C3 at the concrete example database. -/
theorem with_rating_spec_witness :
    ∃ rp ∈ with_rating dbEx [prodD], rp.product = prodD ∧
      rp.review_count = ((productReviews dbEx prodD).map Review.id).toFinset.card ∧
      (productReviews dbEx prodD = [] → rp.avg_rating = none) ∧
      (productReviews dbEx prodD ≠ [] →
        rp.avg_rating =
          some (((productReviews dbEx prodD).map (fun r => (r.rating : ℚ))).sum /
            ((productReviews dbEx prodD).length : ℚ))) :=
  with_rating_spec.1 dbEx [prodD] prodD (by simp)

/-- Claim C5: deleting a product is rejected with no state change while any
order item references it; a successful deletion removes the product and
cascades exactly its detail row, its supplier links, its tag links and its
reviews, leaving order items and tags untouched. -/
theorem deleteProduct_spec :
    ∀ (db : DB) (pid : Nat),
      ((∃ oi ∈ db.orderItems, oi.productId = pid) →
        deleteProduct db pid = Except.error DBError.referentialIntegrityViolation) ∧
      (∀ db', deleteProduct db pid = Except.ok db' →
        (∀ p : Product, p ∈ db'.products ↔ p ∈ db.products ∧ p.id ≠ pid) ∧
        (∀ d : ProductDetail,
          d ∈ db'.productDetails ↔ d ∈ db.productDetails ∧ d.productId ≠ pid) ∧
        (∀ s : ProductSupplier,
          s ∈ db'.productSuppliers ↔ s ∈ db.productSuppliers ∧ s.productId ≠ pid) ∧
        (∀ pt : ProductTag,
          pt ∈ db'.productTags ↔ pt ∈ db.productTags ∧ pt.productId ≠ pid) ∧
        (∀ r : Review, r ∈ db'.reviews ↔ r ∈ db.reviews ∧ r.productId ≠ pid) ∧
        db'.orderItems = db.orderItems ∧ db'.tags = db.tags) := by
  intro db pid
  constructor
  · rintro ⟨oi, hoi, hpid⟩
    have hany : db.orderItems.any (fun x => x.productId == pid) = true := by
      exact List.any_eq_true.mpr ⟨oi, hoi, by simp [hpid]⟩
    simp [deleteProduct, hany]
  · intro db' hok
    by_cases hany : db.orderItems.any (fun x => x.productId == pid) = true
    · simp [deleteProduct, hany] at hok
    · simp [deleteProduct, hany] at hok
      subst hok
      refine ⟨?_, ?_, ?_, ?_, ?_, rfl, rfl⟩ <;>
        intro x <;> simp [List.mem_filter]

/-- Witness for C5: deleting product 1 while an order item references it is
rejected with a referential-integrity error. -/
theorem deleteProduct_spec_witness :
    deleteProduct dbDel 1 = Except.error DBError.referentialIntegrityViolation :=
  (deleteProduct_spec dbDel 1).1 ⟨oiDel, by decide, rfl⟩

/-- Claim C6: inserting a product whose `(name, category)` pair already
exists fails with a uniqueness violation and commits nothing; when no row
has that pair (in particular when the same name sits in another category)
the insert succeeds and appends exactly the new row. -/
theorem insertProduct_spec :
    ∀ (db : DB) (p : Product),
      ((∃ q ∈ db.products, q.name = p.name ∧ q.categoryId = p.categoryId) →
        insertProduct db p = Except.error DBError.uniquenessViolation) ∧
      ((∀ q ∈ db.products, ¬(q.name = p.name ∧ q.categoryId = p.categoryId)) →
        insertProduct db p = Except.ok { db with products := db.products ++ [p] }) := by
  intro db p
  constructor
  · rintro ⟨q, hq, hname, hcat⟩
    have hany : db.products.any (fun x => x.name == p.name && x.categoryId == p.categoryId) = true :=
      List.any_eq_true.mpr ⟨q, hq, by simp [hname, hcat]⟩
    simp [insertProduct, hany]
  · intro h
    have hany : db.products.any (fun x => x.name == p.name && x.categoryId == p.categoryId) = false := by
      simp only [List.any_eq_false]
      intro q hq
      have := h q hq
      simp only [Bool.and_eq_true, beq_iff_eq]
      tauto
    simp [insertProduct, hany]

/-- Witness for C6: inserting a duplicate of product A in category 1 fails,
inserting product A under category 2 succeeds. -/
theorem insertProduct_spec_witness :
    insertProduct dbDel prodDupA = Except.error DBError.uniquenessViolation ∧
    insertProduct dbDel prodDiffCat =
      Except.ok { dbDel with products := dbDel.products ++ [prodDiffCat] } :=
  ⟨(insertProduct_spec dbDel prodDupA).1 ⟨prodA, by decide, by decide⟩,
   (insertProduct_spec dbDel prodDiffCat).2 (by decide)⟩

/-- Claim C7: creating an order item with `quantity = 0` fails validation;
with `quantity = 1`, a non-negative unit price and a fresh `(order, product)`
pair it succeeds; a valid item whose `(order, product)` pair already
exists fails with a uniqueness violation. -/
theorem createOrderItem_spec :
    (∀ (db : DB) (oi : OrderItem), oi.quantity = 0 →
      createOrderItem db oi = Except.error DBError.validationError) ∧
    (∀ (db : DB) (oi : OrderItem), oi.quantity = 1 → 0 ≤ oi.unit_price →
      (∀ x ∈ db.orderItems, ¬(x.orderId = oi.orderId ∧ x.productId = oi.productId)) →
      createOrderItem db oi = Except.ok { db with orderItems := db.orderItems ++ [oi] }) ∧
    (∀ (db : DB) (oi : OrderItem) (x : OrderItem), x ∈ db.orderItems →
      x.orderId = oi.orderId → x.productId = oi.productId → validOrderItem oi = true →
      createOrderItem db oi = Except.error DBError.uniquenessViolation) := by
  refine ⟨?_, ?_, ?_⟩
  · intro db oi h
    simp [createOrderItem, validOrderItem, minValueValidatorNat, h]
  · intro db oi hq hp hfresh
    have hvalid : validOrderItem oi = true := by
      simp [validOrderItem, minValueValidatorNat, minValueValidatorQ, hq, hp]
    have hany : db.orderItems.any
        (fun x => x.orderId == oi.orderId && x.productId == oi.productId) = false := by
      simp only [List.any_eq_false]
      intro x hx
      have := hfresh x hx
      simp only [Bool.and_eq_true, beq_iff_eq]
      tauto
    simp [createOrderItem, hvalid, hany]
  · intro db oi x hx ho hp hvalid
    have hany : db.orderItems.any
        (fun y => y.orderId == oi.orderId && y.productId == oi.productId) = true :=
      List.any_eq_true.mpr ⟨x, hx, by simp [ho, hp]⟩
    simp [createOrderItem, hvalid, hany]

/-- Witness for C7 on concrete order items: quantity 0 rejected, quantity 1
accepted for a fresh pair, duplicate `(order, product)` pair rejected. -/
theorem createOrderItem_spec_witness :
    createOrderItem dbDel oiZero = Except.error DBError.validationError ∧
    createOrderItem dbDel oiOne =
      Except.ok { dbDel with orderItems := dbDel.orderItems ++ [oiOne] } ∧
    createOrderItem dbDel oiDup = Except.error DBError.uniquenessViolation :=
  ⟨createOrderItem_spec.1 dbDel oiZero rfl,
   createOrderItem_spec.2.1 dbDel oiOne rfl (by norm_num [oiOne]) (by decide),
   createOrderItem_spec.2.2 dbDel oiDup oiDel (by decide) rfl rfl (by decide)⟩

/-- Claim C9: a validated order's status is always the stored value of one
of the four members of the closed `Order.Status` enumeration, every member's
value passes choice validation, and an order created without an explicit
status carries the default `pending`. -/
theorem order_status_spec :
    (∀ o : Order, validOrder o = true → ∃ st : OrderStatus, OrderStatus.value st = o.status) ∧
    (∀ st : OrderStatus, validOrderStatus (OrderStatus.value st) = true) ∧
    (∀ (oid cid : Nat) (a : ℚ),
      (mkOrder oid cid a none).status = OrderStatus.value OrderStatus.pending) := by
  refine ⟨?_, ?_, ?_⟩
  · intro o ho
    have hs : validOrderStatus o.status = true := by
      simp only [validOrder, Bool.and_eq_true] at ho
      exact ho.1
    have hmem : o.status ∈ statusChoices := by
      simpa [validOrderStatus] using hs
    simp only [statusChoices, OrderStatus.all, OrderStatus.value, List.map,
      List.mem_cons, List.not_mem_nil, or_false] at hmem
    rcases hmem with h | h | h | h
    · exact ⟨OrderStatus.pending, h.symm⟩
    · exact ⟨OrderStatus.completed, h.symm⟩
    · exact ⟨OrderStatus.shipped, h.symm⟩
    · exact ⟨OrderStatus.cancelled, h.symm⟩
  · intro st
    cases st <;> rfl
  · intro oid cid a
    rfl

/-- Witness for C9 at a concrete validated order. -/
theorem order_status_spec_witness :
    ∃ st : OrderStatus, OrderStatus.value st = ordEx.status :=
  order_status_spec.1 ordEx (by decide)

/-- Counterexample to C4's storage-layer half: the storage layer accepts a
review with rating 6, because Review.Meta declares no check constraint, so
the rating bounds are NOT enforced at the constraint/trigger level. -/
theorem review_rating_not_storage_enforced :
    ¬ (∀ (db : DB) (r : Review) (db' : DB),
        insertReviewStorage db r = Except.ok db' → 1 ≤ r.rating ∧ r.rating ≤ 5) := by
  intro h
  have hbad := h dbD0 badReview { dbD0 with reviews := dbD0.reviews ++ [badReview] } rfl
  exact absurd hbad (by decide)

/-- Claim C4 (amended): creating a review with rating 6 or 0 fails the
field validators while ratings 1 and 5 succeed; the bounds live only in
application-level validators — Review.Meta declares no storage-layer
constraint. -/
theorem review_rating_validation :
    (∀ (db : DB) (r : Review), r.rating = 6 ∨ r.rating = 0 →
      createReview db r = Except.error DBError.validationError) ∧
    (∀ (db : DB) (r : Review), r.rating = 1 ∨ r.rating = 5 →
      createReview db r = Except.ok { db with reviews := db.reviews ++ [r] }) ∧
    reviewMetaConstraints = [] := by
  refine ⟨?_, ?_, rfl⟩
  · intro db r h
    rcases h with h | h <;>
      simp [createReview, validReviewRating, minValueValidatorInt, maxValueValidatorInt, h]
  · intro db r h
    rcases h with h | h <;>
      simp [createReview, validReviewRating, minValueValidatorInt, maxValueValidatorInt, h]

/-- Witness for the amended C4 on concrete ratings. -/
theorem review_rating_validation_witness :
    createReview dbD0 badReview = Except.error DBError.validationError ∧
    createReview dbD0 revD2 = Except.ok { dbD0 with reviews := dbD0.reviews ++ [revD2] } :=
  ⟨review_rating_validation.1 dbD0 badReview (Or.inl rfl),
   review_rating_validation.2.1 dbD0 revD2 (Or.inr rfl)⟩

/-- Claim C10: Review carries no uniqueness constraint over
`(product, customer)` — its Meta constraints list is empty — so the same
customer writes two distinct reviews of the same product, both creations
succeed, and `with_rating` then counts both reviews and averages both
ratings. -/
theorem review_no_unique_per_customer :
    reviewMetaConstraints = [] ∧
    createReview dbD0 revD1 = Except.ok dbD1 ∧
    createReview dbD1 revD2 = Except.ok dbEx ∧
    revD1.customerId = revD2.customerId ∧
    revD1.productId = revD2.productId ∧
    revD1.id ≠ revD2.id ∧
    (rateProduct dbEx prodD).review_count = 2 ∧
    (rateProduct dbEx prodD).avg_rating = some 4 := by
  refine ⟨rfl, ?_, ?_, rfl, rfl, by decide, rfl, ?_⟩
  · simp [createReview, validReviewRating, minValueValidatorInt, maxValueValidatorInt,
      revD1, dbD1, dbD0]
  · simp [createReview, validReviewRating, minValueValidatorInt, maxValueValidatorInt,
      revD2, dbEx, dbD1, dbD0]
  · norm_num [rateProduct, productReviews, dbEx, dbD0, prodD, revD1, revD2]
    simp

end Shop
